import Mathlib

/-!
Shallow embedding of the authentication/session core of the superfaceai
service-client library (src/client.ts and src/interfaces), together with
theorems settling the specification claims about it.

JavaScript conventions are modelled explicitly:
* an optional string field is `Option String`; JS truthiness of a string
  value (`undefined`, `null` and `""` are falsy) is `strTruthy`;
* JS `a || b` on optional strings is `jsOrStr`;
* JS number truthiness (`0` is falsy) appears in `isAccessTokenExpired`
  as a `≠ 0` test;
* template interpolation of `undefined` yields the literal string
  `"undefined"` (see `bearerValue`);
* `Object.assign` header merging is concatenation of association lists
  where the *last* binding for a key wins (`hlookup`).

The wall clock is a parameter: `getCurrentTime()` observations are passed
in as explicit `now : Int` arguments, and the polling loop of
`verifyLogin` threads an explicit time counter advanced by per-poll
durations and by the sleep interval.  The transport is an oracle: each
network call consumes a response supplied by an environment record.
-/

set_option autoImplicit false

/-- JS truthiness of an optional string value: `undefined` and `""` are falsy. -/
def strTruthy : Option String → Bool
  | none => false
  | some s => s ≠ ""

/-- JS `a || b` for optional string values. -/
def jsOrStr (a b : Option String) : Option String :=
  if strTruthy a then a else b

/-- Last-binding-wins lookup in an association list, matching the result of
building a JS object by `Object.assign` from the bindings in order. -/
def hlookup : List (String × String) → String → Option String
  | [], _ => none
  | (k', v) :: rest, k =>
    match hlookup rest k with
    | some w => some w
    | none => if k' = k then some v else none

/-- The `AuthToken` wire shape: `{access_token, token_type, expires_in, refresh_token?}`. -/
structure AuthToken where
  access_token : String
  token_type : String
  expires_in : Int
  refresh_token : Option String
deriving DecidableEq, Repr

/-- The private `ClientStorage` session record of `ServiceClient`.  The
refresh-token-updated handler is a function in the source; here it is an
opaque identifier, `none` meaning the field is unset. -/
structure ClientStorage where
  baseUrl : Option String
  authToken : Option AuthToken
  authTokenExpiresAt : Option Int
  refreshToken : Option String
  commonHeaders : Option (List (String × String))
  refreshTokenUpdatedHandler : Option Nat
deriving DecidableEq, Repr

/-- The `ClientOptions` argument of `setOptions` / the constructor. -/
structure ClientOptions where
  baseUrl : Option String
  refreshToken : Option String
  commonHeaders : Option (List (String × String))
  refreshTokenUpdatedHandler : Option Nat
deriving DecidableEq, Repr

/-- Embedding of `ServiceClient.setOptions`: `baseUrl`, `refreshToken` and
`commonHeaders` are assigned only when the supplied value is truthy (for the
strings: present and nonempty; for the headers object: present), while
`refreshTokenUpdatedHandler` is assigned unconditionally. -/
def setOptions (st : ClientStorage) (o : ClientOptions) : ClientStorage :=
  let st1 := if strTruthy o.baseUrl then { st with baseUrl := o.baseUrl } else st
  let st2 := if strTruthy o.refreshToken then { st1 with refreshToken := o.refreshToken } else st1
  let st3 :=
    match o.commonHeaders with
    | some hs => { st2 with commonHeaders := some hs }
    | none => st2
  { st3 with refreshTokenUpdatedHandler := o.refreshTokenUpdatedHandler }

/-- Embedding of `ServiceClient.login`.  Returns the updated storage together
with the refresh-token-updated handler invocation, if one happens (its
arguments `(baseUrl, newRefreshToken)`). -/
def login (now : Int) (st : ClientStorage) (authToken : AuthToken) :
    ClientStorage × Option (String × String) :=
  let refreshToken := jsOrStr (st.authToken.bind AuthToken.refresh_token) st.refreshToken
  let newRefreshToken := authToken.refresh_token
  let st' := { st with
    authTokenExpiresAt := some (now + authToken.expires_in)
    authToken := some authToken }
  let ev :=
    match st.refreshTokenUpdatedHandler, st.baseUrl, newRefreshToken with
    | some _, some base, some nrt =>
      if base ≠ "" ∧ nrt ≠ "" ∧ refreshToken ≠ some nrt then some (base, nrt) else none
    | _, _, _ => none
  (st', ev)

/-- Embedding of `ServiceClient.isAccessTokenExpired`.  Note the source tests
`!!authTokenExpiresAt`, so a stored expiry of `0` is treated like an absent
expiry (JS number truthiness). -/
def isAccessTokenExpired (now : Int) (st : ClientStorage) : Bool :=
  match st.authToken with
  | none => true
  | some _ =>
    match st.authTokenExpiresAt with
    | none => false
    | some e => if e ≠ 0 ∧ e ≤ now then true else false

/-- The `RefreshAccessTokenOptions` argument of `refreshAccessToken`. -/
structure RefreshAccessTokenOptions where
  cookie : Option String
deriving DecidableEq, Repr

/-- Response of the token-refresh endpoint: its HTTP status, and its body
parsed as an `AuthToken` (read only when the status is 201). -/
structure RefreshResp where
  status : Nat
  token : AuthToken
deriving DecidableEq, Repr

/-- An issued HTTP request, as observed at the transport boundary. -/
structure HttpRequest where
  url : String
  method : String
  headers : List (String × String)
deriving DecidableEq, Repr

/-- Embedding of `ServiceClient.getRefreshTokenCookie`: an explicitly supplied
(truthy) cookie option wins; otherwise `user_session=` followed by the current
token's `refresh_token`, or the stored refresh token, or the empty string
(JS `||` chain). -/
def getRefreshTokenCookie (st : ClientStorage)
    (options : Option RefreshAccessTokenOptions) : String :=
  let inner :=
    (jsOrStr (jsOrStr (st.authToken.bind AuthToken.refresh_token) st.refreshToken)
      (some "")).getD ""
  let dflt := "user_session=" ++ inner
  match options.bind RefreshAccessTokenOptions.cookie with
  | some c => if c ≠ "" then c else dflt
  | none => dflt

/-- Embedding of `ServiceClient.refreshAccessToken`.  An untruthy `baseUrl`
throws a `ServiceClientError` (the `.error` branch).  Otherwise the issued
request, the returned token (if any) and the resulting storage are produced:
a non-201 response yields `none` and leaves the storage unchanged; a 201
response is parsed as a token, `login` is performed, and the token returned. -/
def refreshAccessToken (now : Int) (st : ClientStorage)
    (options : Option RefreshAccessTokenOptions) (resp : RefreshResp) :
    Except String (HttpRequest × Option AuthToken × ClientStorage) :=
  let cookie := getRefreshTokenCookie st options
  match st.baseUrl with
  | none => .error "Client is not initialized, baseUrl not configured"
  | some base =>
    if base = "" then .error "Client is not initialized, baseUrl not configured"
    else
      let req : HttpRequest :=
        { url := base ++ "/auth/token"
          method := "POST"
          headers := st.commonHeaders.getD [] ++ [("cookie", cookie)] }
      if resp.status ≠ 201 then .ok (req, none, st)
      else .ok (req, some resp.token, (login now st resp.token).1)

/-- The value of the `Authorization` header built by `fetch`'s `_fetch`
closure: JS template interpolation of `authToken?.access_token`, which is the
literal string `undefined` when no token is stored. -/
def bearerValue (st : ClientStorage) : String :=
  "Bearer " ++ (match st.authToken with
                | none => "undefined"
                | some t => t.access_token)

/-- JS template interpolation of `this._STORAGE.baseUrl` inside
`fetch`: an unset base URL interpolates as the literal string `undefined`. -/
def baseUrlText (st : ClientStorage) : String :=
  match st.baseUrl with
  | none => "undefined"
  | some b => b

/-- Header construction and request assembly of `fetch`'s `_fetch` closure:
`Object.assign({}, commonHeaders, opts.headers, useAuthentication && {...})`.
The merged header list is also returned because the source assigns it back to
`opts.headers` (observable on the retry, which re-merges). -/
def fetchBuild (st : ClientStorage) (useAuth : Bool)
    (optsHeaders : List (String × String)) (url method : String) :
    HttpRequest × List (String × String) :=
  let newHeaders :=
    st.commonHeaders.getD [] ++ optsHeaders ++
      (if useAuth then [("Authorization", bearerValue st)] else [])
  ({ url := baseUrlText st ++ url
     method := method
     headers := newHeaders },
   newHeaders)

/-- Transport oracle for one `fetch` call: `refreshResp i` answers the i-th
call to the token-refresh endpoint, `respStatus i` is the status of the i-th
issued main request. -/
structure FetchEnv where
  refreshResp : Nat → RefreshResp
  respStatus : Nat → Nat

/-- Observable outcome of one `fetch` call: how many times
`refreshAccessToken` ran, the main requests issued in order, the status of
the response handed back to the caller, and the final session storage. -/
structure FetchOutcome where
  refreshCalls : Nat
  requests : List HttpRequest
  finalStatus : Nat
  finalState : ClientStorage
deriving Repr

/-- Step 2 of `ServiceClient.fetch`: when authenticating and the stored
token is expired, perform one best-effort `refreshAccessToken` before the
main request (its null result ignored, its thrown error propagated).
Returns the storage to use and the number of refresh calls made so far. -/
def fetchPreRefresh (now : Int) (st : ClientStorage) (useAuth : Bool)
    (env : FetchEnv) : Except String (ClientStorage × Nat) :=
  if useAuth && isAccessTokenExpired now st then
    match refreshAccessToken now st none (env.refreshResp 0) with
    | .error e => .error e
    | .ok (_, _, st') => .ok (st', 1)
  else .ok (st, 0)

/-- Embedding of `ServiceClient.fetch`: optional pre-request refresh when
authenticating with an expired token (`fetchPreRefresh`), one main request,
and — when authenticating and the primary status is 401 or 403 — exactly one
further refresh followed by one reissued request whose result is returned
whatever its status.  Errors thrown by `refreshAccessToken` propagate. -/
def ServiceClient.fetch (now : Int) (st : ClientStorage) (url method : String)
    (optsHeaders : List (String × String)) (authenticate : Option Bool)
    (env : FetchEnv) : Except String FetchOutcome :=
  let useAuth := authenticate.getD true
  match fetchPreRefresh now st useAuth env with
  | .error e => .error e
  | .ok (st1, rc) =>
    let (req1, hdrs1) := fetchBuild st1 useAuth optsHeaders url method
    let status1 := env.respStatus 0
    if useAuth && (status1 == 401 || status1 == 403) then
      match refreshAccessToken now st1 none (env.refreshResp rc) with
      | .error e => .error e
      | .ok (_, _, st2) =>
        let (req2, _) := fetchBuild st2 useAuth hdrs1 url method
        .ok { refreshCalls := rc + 1
              requests := [req1, req2]
              finalStatus := env.respStatus 1
              finalState := st2 }
    else
      .ok { refreshCalls := rc
            requests := [req1]
            finalStatus := status1
            finalState := st1 }

/-- The `VerificationStatus` enum of `interfaces/verify_response.ts`. -/
inductive VerificationStatus where
  | PENDING
  | EXPIRED
  | USED
  | CONFIRMED
  | POLLING_TIMEOUT
  | POLLING_CANCELLED
deriving DecidableEq, Repr

/-- The `VerifyResponse` result shape. -/
structure VerifyResponse where
  verificationStatus : VerificationStatus
  authToken : Option AuthToken
deriving DecidableEq, Repr

/-- Response of one poll of the verify URL: HTTP 200 with a token body,
HTTP 400 with a `VerifyErrorResponse` body `{status, title}`, or any other
status code. -/
inductive PollHttp where
  | ok200 (token : AuthToken)
  | err400 (status : VerificationStatus) (title : String)
  | other (status : Nat)
deriving DecidableEq, Repr

/-- Embedding of `ServiceClient.fetchVerifyLogin`: a 200 response logs the
token in and reports `CONFIRMED` with it; a 400 body whose status is
`PENDING`, `USED` or `EXPIRED` reports that status; anything else throws
(the `.error` branch). -/
def fetchVerifyLogin (now : Int) (st : ClientStorage) (resp : PollHttp) :
    Except String (VerifyResponse × ClientStorage) :=
  match resp with
  | .ok200 tok =>
    .ok ({ verificationStatus := .CONFIRMED, authToken := some tok },
         (login now st tok).1)
  | .err400 s title =>
    if s = .PENDING ∨ s = .USED ∨ s = .EXPIRED then
      .ok ({ verificationStatus := s, authToken := none }, st)
    else .error ("Token verification failed with error: " ++ title)
  | .other n => .error ("Unexpected status code " ++ toString n ++ " received")

/-- Default polling parameters from `interfaces/passwordless_verify_options.ts`. -/
def DEFAULT_POLLING_TIMEOUT_SECONDS : Int := 60

/-- Default polling interval from `interfaces/passwordless_verify_options.ts`. -/
def DEFAULT_POLLING_INTERVAL_SECONDS : Int := 1

/-- Environment of one `verifyLogin` call: `polls i` answers the i-th poll,
`pollDur i` is the wall-clock milliseconds that poll takes, and
`cancelled i` is the value of the cancellation token's
`isCancellationRequested` flag when it is sampled right after the i-th poll
(an absent cancellation token is the constantly-false flag). -/
structure VerifyEnv where
  polls : Nat → PollHttp
  pollDur : Nat → Nat
  cancelled : Nat → Bool

/-- Observable timeline events of one `verifyLogin` call, at absolute
wall-clock times. -/
inductive VEvent where
  | polled (i : Nat) (t : Int)
  | slept (t : Int)
  | cancelCallback (t : Int)
deriving DecidableEq, Repr

/-- Result of one `verifyLogin` call in the fuelled model: a returned
`VerifyResponse` with the final storage, a thrown error, or fuel exhaustion
(a model artifact — the source loop has no iteration bound). -/
inductive VerifyOutcome where
  | ok (r : VerifyResponse) (st : ClientStorage)
  | err (msg : String)
  | fuelOut
deriving DecidableEq, Repr

/-- Embedding of the `while` loop of `ServiceClient.verifyLogin`.  The guard
`elapsed < timeoutMilliseconds` is evaluated at the top of each iteration;
inside, one poll happens, a non-`PENDING` result returns immediately, then
the cancellation flag is sampled, and otherwise the loop sleeps one interval
and repeats.  Falling out of the guard returns `POLLING_TIMEOUT`. -/
def verifyLoop (env : VerifyEnv) (timeoutMs intervalMs start : Int) :
    Nat → Int → Nat → ClientStorage → List VEvent → VerifyOutcome × List VEvent
  | 0, _, _, _, evs => (.fuelOut, evs)
  | fuel+1, t, i, st, evs =>
    if t - start < timeoutMs then
      let t' := t + (env.pollDur i : Int)
      match fetchVerifyLogin t' st (env.polls i) with
      | .error e => (.err e, evs ++ [.polled i t'])
      | .ok (r, st') =>
        if r.verificationStatus ≠ .PENDING then
          (.ok r st', evs ++ [.polled i t'])
        else if env.cancelled i then
          (.ok { verificationStatus := .POLLING_CANCELLED, authToken := none } st',
           evs ++ [.polled i t', .cancelCallback t'])
        else
          verifyLoop env timeoutMs intervalMs start fuel (t' + intervalMs) (i + 1) st'
            (evs ++ [.polled i t', .slept t'])
    else
      (.ok { verificationStatus := .POLLING_TIMEOUT, authToken := none } st, evs)

/-- Embedding of `ServiceClient.verifyLogin` (the entry point behind
`verifyPasswordlessLogin` and `verifyCliLogin`): applies the second-to-
millisecond conversion and the defaulting of the polling options, then runs
the loop from the start timestamp. -/
def ServiceClient.verifyLogin (env : VerifyEnv)
    (pollingTimeoutSeconds pollingIntervalSeconds : Option Int)
    (fuel : Nat) (start : Int) (st : ClientStorage) :
    VerifyOutcome × List VEvent :=
  let timeoutMs := (pollingTimeoutSeconds.getD DEFAULT_POLLING_TIMEOUT_SECONDS) * 1000
  let intervalMs := (pollingIntervalSeconds.getD DEFAULT_POLLING_INTERVAL_SECONDS) * 1000
  verifyLoop env timeoutMs intervalMs start fuel start 0 st []

/-- The `LoginConfirmationErrorCode` enum of
`interfaces/passwordless_confirm_response.ts`. -/
inductive LoginConfirmationErrorCode where
  | EXPIRED
  | USED
  | INVALID
deriving DecidableEq, Repr

/-- Boolean infix test on character lists: does the haystack contain the
needle as a contiguous run? -/
def subList (needle : List Char) : List Char → Bool
  | [] => needle.isEmpty
  | c :: t => needle.isPrefixOf (c :: t) || subList needle t

/-- Embedding of JS `hay.includes(needle)` on strings. -/
def strIncludes (hay needle : String) : Bool :=
  subList needle.toList hay.toList

/-- Embedding of JS `toLowerCase`/`toLocaleLowerCase`: lowercase every
character (written over the character list so the kernel can evaluate it). -/
def strToLower (s : String) : String :=
  String.mk (s.toList.map Char.toLower)

/-- Embedding of `ServiceClient.makeErrorCodeFromLoginConfirmationError`:
lowercase the (optional) title and classify it by substring matching, with
the `expir` test first. -/
def makeErrorCodeFromLoginConfirmationError (title : Option String) :
    LoginConfirmationErrorCode :=
  if (title.map (fun t => strIncludes (strToLower t) "expir")).getD false then
    .EXPIRED
  else if (title.map (fun t => strIncludes (strToLower t) "already confirm")).getD false
      || (title.map (fun t => strIncludes (strToLower t) "used")).getD false then
    .USED
  else
    .INVALID

/-- A JSON scalar as it appears in the `status` field of the confirmation
endpoint body, which the source compares with `=== 'CONFIRMED'` (so a
numeric status never matches). -/
inductive StatusVal where
  | strVal (s : String)
  | numVal (n : Int)
deriving DecidableEq, Repr

/-- Parsed body of the confirmation endpoint response. -/
structure ConfirmBody where
  status : StatusVal
  title : Option String
deriving DecidableEq, Repr

/-- Result of `confirmPasswordlessLogin`: a thrown `ServiceClientError`, a
success, or a classified failure. -/
inductive ConfirmOutcome where
  | thrown (msg : String)
  | success
  | failure (code : LoginConfirmationErrorCode)
deriving DecidableEq, Repr

/-- Embedding of `ServiceClient.confirmPasswordlessLogin` from the point the
response body is parsed: an unparseable body throws a `ServiceClientError`
embedding the parse error, a `status === 'CONFIRMED'` body succeeds, and any
other body fails with the code classified from its title. -/
def confirmPasswordlessLogin (body : Except String ConfirmBody) : ConfirmOutcome :=
  match body with
  | .error e => .thrown ("Cannot deserialize confirmation API response: " ++ e)
  | .ok b =>
    if b.status = .strVal "CONFIRMED" then .success
    else .failure (makeErrorCodeFromLoginConfirmationError b.title)

/-- Sample token used by concrete witnesses. -/
def sampleToken : AuthToken := ⟨"AT", "Bearer", 3600, some "RT"⟩

/-- Sample logged-out storage used by concrete witnesses. -/
def plainStorage : ClientStorage :=
  { baseUrl := some "https://superface.ai", authToken := none,
    authTokenExpiresAt := none, refreshToken := none,
    commonHeaders := none, refreshTokenUpdatedHandler := none }

/-- Sample transport environment whose refresh endpoint keeps answering 400
and whose main requests answer 200. -/
def deniedEnv : FetchEnv := ⟨fun _ => ⟨400, sampleToken⟩, fun _ => 200⟩

/-- Sample transport environment whose refresh endpoint keeps answering 400
and whose main requests keep answering 401. -/
def retryEnv : FetchEnv := ⟨fun _ => ⟨400, sampleToken⟩, fun _ => 401⟩

/-- Sample polling environment: every poll is a 400 `PENDING` answer taking
2000 ms, and no cancellation is ever requested. -/
def noCancelEnv : VerifyEnv :=
  ⟨fun _ => .err400 .PENDING "pending", fun _ => 2000, fun _ => false⟩

/-- Sample polling environment: every poll is a 400 `PENDING` answer taking
5 ms, and the cancellation flag is set from the very start. -/
def pendingCancelEnv : VerifyEnv :=
  ⟨fun _ => .err400 .PENDING "pending", fun _ => 5, fun _ => true⟩

/-- Sample polling environment: the first poll already answers 200 with
`sampleToken`, each poll taking 5 ms. -/
def confirmedEnv : VerifyEnv :=
  ⟨fun _ => .ok200 sampleToken, fun _ => 5, fun _ => false⟩

/-- The storage produced by logging `sampleToken` into `plainStorage` at
time 5. -/
def confirmedStorage : ClientStorage :=
  { baseUrl := some "https://superface.ai", authToken := some sampleToken,
    authTokenExpiresAt := some 3605, refreshToken := none,
    commonHeaders := none, refreshTokenUpdatedHandler := none }

/-!  Helper lemmas shared by the claim theorems. -/

theorem hlookup_append (xs ys : List (String × String)) (k : String) :
    hlookup (xs ++ ys) k =
      match hlookup ys k with
      | some w => some w
      | none => hlookup xs k := by
  induction xs with
  | nil =>
    simp only [List.nil_append]
    cases h : hlookup ys k <;> simp [hlookup]
  | cons p rest ih =>
    obtain ⟨k', v⟩ := p
    rw [List.cons_append]
    simp only [hlookup, ih]
    cases h : hlookup ys k <;> cases h2 : hlookup rest k <;> simp

theorem hlookup_append_singleton (xs : List (String × String)) (k v : String) :
    hlookup (xs ++ [(k, v)]) k = some v := by
  rw [hlookup_append]
  simp [hlookup]

theorem login_fields (now : Int) (st : ClientStorage) (tok : AuthToken) :
    ((login now st tok).1).baseUrl = st.baseUrl ∧
    ((login now st tok).1).commonHeaders = st.commonHeaders ∧
    ((login now st tok).1).authToken = some tok ∧
    ((login now st tok).1).authTokenExpiresAt = some (now + tok.expires_in) := by
  exact ⟨rfl, rfl, rfl, rfl⟩

theorem refreshAccessToken_isOk (now : Int) (st : ClientStorage)
    (options : Option RefreshAccessTokenOptions) (resp : RefreshResp) (b : String)
    (hb : st.baseUrl = some b) (hne : b ≠ "") :
    ∃ req tok stA, refreshAccessToken now st options resp = .ok (req, tok, stA) ∧
      stA.baseUrl = some b ∧ stA.commonHeaders = st.commonHeaders := by
  unfold refreshAccessToken
  rw [hb]
  dsimp only
  rw [if_neg hne]
  by_cases h : resp.status = 201
  · rw [if_neg (by simp [h])]
    exact ⟨_, _, _, rfl, by rw [(login_fields now st resp.token).1, hb],
      (login_fields now st resp.token).2.1⟩
  · rw [if_pos h]
    exact ⟨_, _, _, rfl, hb, rfl⟩

/-- Claim C2 (amended): `isAccessTokenExpired` returns true when no access
token is stored; when a token is stored it returns true exactly when the
stored expiry is present, nonzero (JS number truthiness) and `≤ now`; an
absent expiry, a stored expiry of `0`, or a future expiry yields false. -/
theorem isAccessTokenExpired_spec (now : Int) (st : ClientStorage) :
    (st.authToken = none → isAccessTokenExpired now st = true) ∧
    (st.authToken.isSome = true → st.authTokenExpiresAt = none →
      isAccessTokenExpired now st = false) ∧
    (∀ e : Int, st.authToken.isSome = true → st.authTokenExpiresAt = some e →
      e ≠ 0 → e ≤ now → isAccessTokenExpired now st = true) ∧
    (∀ e : Int, st.authToken.isSome = true → st.authTokenExpiresAt = some e →
      now < e → isAccessTokenExpired now st = false) ∧
    (st.authToken.isSome = true → st.authTokenExpiresAt = some 0 →
      isAccessTokenExpired now st = false) := by
  refine ⟨?_, ?_, ?_, ?_, ?_⟩
  · intro h
    simp [isAccessTokenExpired, h]
  · intro hs he
    obtain ⟨tok, hA⟩ := Option.isSome_iff_exists.mp hs
    simp [isAccessTokenExpired, hA, he]
  · intro e hs hE hne hle
    obtain ⟨tok, hA⟩ := Option.isSome_iff_exists.mp hs
    simp [isAccessTokenExpired, hA, hE, hne, hle]
  · intro e hs hE hlt
    obtain ⟨tok, hA⟩ := Option.isSome_iff_exists.mp hs
    have hn : ¬ (e ≤ now) := by omega
    simp [isAccessTokenExpired, hA, hE, hn]
  · intro hs hE
    obtain ⟨tok, hA⟩ := Option.isSome_iff_exists.mp hs
    simp [isAccessTokenExpired, hA, hE]

/-- Witness for claim C2: a session whose token expired at time 3 is expired
at time 5. -/
theorem isAccessTokenExpired_spec_witness :
    isAccessTokenExpired 5
      { baseUrl := none
        authToken := some ⟨"AT", "Bearer", 3600, none⟩
        authTokenExpiresAt := some 3
        refreshToken := none
        commonHeaders := none
        refreshTokenUpdatedHandler := none } = true :=
  (isAccessTokenExpired_spec 5 _).2.2.1 3 rfl rfl (by decide) (by decide)

/-- Counterexample to claim C2 as stated: with a token stored and a stored
expiry of `0`, at `now = 5` we have `accessTokenExpiresAt ≤ now`, yet the
source returns `false` — the `!!authTokenExpiresAt` truthiness test treats
the stored `0` like an absent expiry. -/
theorem isAccessTokenExpired_zero_counterexample :
    (0 : Int) ≤ 5 ∧
    isAccessTokenExpired 5
      { baseUrl := some "https://superface.ai"
        authToken := some ⟨"AT", "Bearer", 3600, none⟩
        authTokenExpiresAt := some 0
        refreshToken := none
        commonHeaders := none
        refreshTokenUpdatedHandler := none } = false :=
  ⟨by decide, rfl⟩

/-- Claim C8 (amended): `setOptions` overwrites `baseUrl` and `refreshToken`
only when the supplied value is truthy, overwrites `commonHeaders` only when
one is supplied, and never touches the token fields; but the
refresh-token-updated handler field is assigned unconditionally, so a call
that supplies none unsets any previously registered handler. -/
theorem setOptions_spec (st : ClientStorage) (o : ClientOptions) :
    (strTruthy o.baseUrl = false → (setOptions st o).baseUrl = st.baseUrl) ∧
    (strTruthy o.baseUrl = true → (setOptions st o).baseUrl = o.baseUrl) ∧
    (strTruthy o.refreshToken = false → (setOptions st o).refreshToken = st.refreshToken) ∧
    (strTruthy o.refreshToken = true → (setOptions st o).refreshToken = o.refreshToken) ∧
    (o.commonHeaders = none → (setOptions st o).commonHeaders = st.commonHeaders) ∧
    (∀ hs, o.commonHeaders = some hs → (setOptions st o).commonHeaders = some hs) ∧
    (setOptions st o).authToken = st.authToken ∧
    (setOptions st o).authTokenExpiresAt = st.authTokenExpiresAt ∧
    (setOptions st o).refreshTokenUpdatedHandler = o.refreshTokenUpdatedHandler := by
  unfold setOptions
  cases hB : strTruthy o.baseUrl <;> cases hR : strTruthy o.refreshToken <;>
    cases hC : o.commonHeaders <;> simp_all

/-- Witness for claim C8: a truthy `baseUrl` in the options overwrites the
stored one. -/
theorem setOptions_spec_witness :
    (setOptions
      { baseUrl := some "https://superface.ai", authToken := none,
        authTokenExpiresAt := none, refreshToken := none, commonHeaders := none,
        refreshTokenUpdatedHandler := none }
      { baseUrl := some "https://example.test", refreshToken := none,
        commonHeaders := none, refreshTokenUpdatedHandler := none }).baseUrl =
      some "https://example.test" :=
  (setOptions_spec _ _).2.1 (by decide)

/-- Counterexample to claim C8 as stated: calling `setOptions` with options
that carry no refresh-token-updated handler unsets a previously registered
handler, so that field is not "overwritten only when present". -/
theorem setOptions_unsets_handler_counterexample :
    (setOptions
      { baseUrl := some "https://superface.ai", authToken := none,
        authTokenExpiresAt := none, refreshToken := none, commonHeaders := none,
        refreshTokenUpdatedHandler := some 7 }
      { baseUrl := none, refreshToken := none, commonHeaders := none,
        refreshTokenUpdatedHandler := none }).refreshTokenUpdatedHandler = none ∧
    (some 7 : Option Nat) ≠ none :=
  ⟨rfl, by decide⟩

/-- Claim C9: `confirmPasswordlessLogin` throws a `ServiceClientError`
embedding the parse error on an unparseable body, succeeds on a body whose
`status` is the string `CONFIRMED`, and classifies every other body by
case-insensitive substring matching on its title with the stated priority:
`expir` gives `EXPIRED`, else `already confirm` or `used` gives `USED`, else
`INVALID`; in particular the body `{status: 400, title: "Code is expired"}`
yields `EXPIRED`. -/
theorem confirmPasswordlessLogin_spec :
    (∀ e, confirmPasswordlessLogin (.error e) =
      .thrown ("Cannot deserialize confirmation API response: " ++ e)) ∧
    (∀ b : ConfirmBody, b.status = .strVal "CONFIRMED" →
      confirmPasswordlessLogin (.ok b) = .success) ∧
    (∀ b : ConfirmBody, b.status ≠ .strVal "CONFIRMED" →
      confirmPasswordlessLogin (.ok b) =
        .failure (makeErrorCodeFromLoginConfirmationError b.title)) ∧
    (∀ t, strIncludes (strToLower t) "expir" = true →
      makeErrorCodeFromLoginConfirmationError (some t) = .EXPIRED) ∧
    (∀ t, strIncludes (strToLower t) "expir" = false →
      (strIncludes (strToLower t) "already confirm" = true ∨
        strIncludes (strToLower t) "used" = true) →
      makeErrorCodeFromLoginConfirmationError (some t) = .USED) ∧
    (∀ t, strIncludes (strToLower t) "expir" = false →
      strIncludes (strToLower t) "already confirm" = false →
      strIncludes (strToLower t) "used" = false →
      makeErrorCodeFromLoginConfirmationError (some t) = .INVALID) ∧
    makeErrorCodeFromLoginConfirmationError none = .INVALID ∧
    confirmPasswordlessLogin (.ok ⟨.numVal 400, some "Code is expired"⟩) =
      .failure .EXPIRED := by
  refine ⟨?_, ?_, ?_, ?_, ?_, ?_, ?_, ?_⟩
  · intro e
    rfl
  · intro b h
    simp [confirmPasswordlessLogin, h]
  · intro b h
    simp [confirmPasswordlessLogin, h]
  · intro t h
    simp [makeErrorCodeFromLoginConfirmationError, h]
  · intro t h1 h2
    rcases h2 with h2 | h2 <;> simp [makeErrorCodeFromLoginConfirmationError, h1, h2]
  · intro t h1 h2 h3
    simp [makeErrorCodeFromLoginConfirmationError, h1, h2, h3]
  · rfl
  · decide

/-- Witness for claim C9: a body whose status is the string `CONFIRMED`
yields a success. -/
theorem confirmPasswordlessLogin_spec_witness :
    confirmPasswordlessLogin (.ok ⟨.strVal "CONFIRMED", none⟩) = .success :=
  confirmPasswordlessLogin_spec.2.1 ⟨.strVal "CONFIRMED", none⟩ rfl

theorem jsOrStr_of_false {a : Option String} (h : strTruthy a = false)
    (b : Option String) : jsOrStr a b = b := by
  simp [jsOrStr, h]

theorem jsOrStr_of_true {a : Option String} (h : strTruthy a = true)
    (b : Option String) : jsOrStr a b = a := by
  simp [jsOrStr, h]

theorem strTruthy_some {s : String} (h : s ≠ "") : strTruthy (some s) = true := by
  simp [strTruthy, h]

/-- Claim C6: `refreshAccessToken` throws a `ServiceClientError` when
`baseUrl` is unset (untruthy); otherwise it sends `POST {baseUrl}/auth/token`
with a `cookie` header that prefers an explicitly supplied truthy cookie
option, then `user_session=` with the current token's refresh token, then the
stored refresh token; a non-201 response returns `null` without throwing and
without touching the session, and a 201 response logs the parsed token in and
returns it. -/
theorem refreshAccessToken_spec (now : Int) (st : ClientStorage)
    (options : Option RefreshAccessTokenOptions) (resp : RefreshResp) :
    (strTruthy st.baseUrl = false →
      refreshAccessToken now st options resp =
        .error "Client is not initialized, baseUrl not configured") ∧
    (∀ b, st.baseUrl = some b → b ≠ "" →
      (resp.status ≠ 201 →
        refreshAccessToken now st options resp =
          .ok (⟨b ++ "/auth/token", "POST",
                st.commonHeaders.getD [] ++
                  [("cookie", getRefreshTokenCookie st options)]⟩, none, st)) ∧
      (resp.status = 201 →
        refreshAccessToken now st options resp =
          .ok (⟨b ++ "/auth/token", "POST",
                st.commonHeaders.getD [] ++
                  [("cookie", getRefreshTokenCookie st options)]⟩,
               some resp.token, (login now st resp.token).1))) ∧
    (∀ c, options.bind RefreshAccessTokenOptions.cookie = some c → c ≠ "" →
      getRefreshTokenCookie st options = c) ∧
    (strTruthy (options.bind RefreshAccessTokenOptions.cookie) = false →
      ∀ tok rt, st.authToken = some tok → tok.refresh_token = some rt → rt ≠ "" →
        getRefreshTokenCookie st options = "user_session=" ++ rt) ∧
    (strTruthy (options.bind RefreshAccessTokenOptions.cookie) = false →
      strTruthy (st.authToken.bind AuthToken.refresh_token) = false →
      ∀ rt, st.refreshToken = some rt → rt ≠ "" →
        getRefreshTokenCookie st options = "user_session=" ++ rt) := by
  refine ⟨?_, ?_, ?_, ?_, ?_⟩
  · intro h
    cases hB : st.baseUrl with
    | none => unfold refreshAccessToken; rw [hB]
    | some b =>
      rw [hB] at h
      simp only [strTruthy, decide_eq_false_iff_not, ne_eq, not_not] at h
      unfold refreshAccessToken
      rw [hB]
      dsimp only
      rw [if_pos h]
  · intro b hb hne
    constructor
    · intro h201
      unfold refreshAccessToken
      rw [hb]
      dsimp only
      rw [if_neg hne, if_pos h201]
    · intro h201
      unfold refreshAccessToken
      rw [hb]
      dsimp only
      rw [if_neg hne, if_neg (by simp [h201])]
  · intro c hc hcne
    unfold getRefreshTokenCookie
    rw [hc]
    dsimp only
    rw [if_pos hcne]
  · intro hf tok rt hA hR hrt
    unfold getRefreshTokenCookie
    cases hc : options.bind RefreshAccessTokenOptions.cookie with
    | none =>
      dsimp only
      simp [jsOrStr, strTruthy, hA, hR, hrt]
    | some c =>
      rw [hc] at hf
      simp only [strTruthy, decide_eq_false_iff_not, ne_eq, not_not] at hf
      dsimp only
      rw [if_neg (by simp [hf])]
      simp [jsOrStr, strTruthy, hA, hR, hrt]
  · intro hf hf2 rt hR hrt
    unfold getRefreshTokenCookie
    cases hc : options.bind RefreshAccessTokenOptions.cookie with
    | none =>
      dsimp only
      rw [hR, jsOrStr_of_false hf2, jsOrStr_of_true (strTruthy_some hrt)]
      rfl
    | some c =>
      rw [hc] at hf
      simp only [strTruthy, decide_eq_false_iff_not, ne_eq, not_not] at hf
      dsimp only
      rw [if_neg (by simp [hf])]
      rw [hR, jsOrStr_of_false hf2, jsOrStr_of_true (strTruthy_some hrt)]
      rfl

/-- Witness for claim C6: a 400 response from the token endpoint yields
`null` and an unchanged session, with the cookie built from the stored
refresh token. -/
theorem refreshAccessToken_spec_witness :
    refreshAccessToken 100
      { baseUrl := some "https://superface.ai", authToken := none,
        authTokenExpiresAt := none, refreshToken := some "RT",
        commonHeaders := none, refreshTokenUpdatedHandler := none }
      none ⟨400, ⟨"AT", "Bearer", 3600, none⟩⟩ =
      .ok (⟨"https://superface.ai/auth/token", "POST",
            [("cookie", "user_session=RT")]⟩, none,
           { baseUrl := some "https://superface.ai", authToken := none,
             authTokenExpiresAt := none, refreshToken := some "RT",
             commonHeaders := none, refreshTokenUpdatedHandler := none }) :=
  ((refreshAccessToken_spec 100 _ none _).2.1 "https://superface.ai" rfl
    (by decide)).1 (by decide)

theorem refreshAccessToken_non201 (now : Int) (st : ClientStorage)
    (options : Option RefreshAccessTokenOptions) (resp : RefreshResp)
    (b : String) (hb : st.baseUrl = some b) (hne : b ≠ "")
    (h : resp.status ≠ 201) :
    refreshAccessToken now st options resp =
      .ok (⟨b ++ "/auth/token", "POST",
            st.commonHeaders.getD [] ++
              [("cookie", getRefreshTokenCookie st options)]⟩, none, st) := by
  unfold refreshAccessToken
  rw [hb]
  dsimp only
  rw [if_neg hne, if_pos h]


/-- Claim C7: a `fetch` call with `authenticate: false` performs no refresh
call, leaves the session unchanged, and issues exactly one request whose
headers are `commonHeaders` merged with (and overridden by) the
caller-supplied headers, with no `Authorization` entry added — so if neither
header source carries an `Authorization` key, the issued request has none. -/
theorem fetch_unauthenticated_spec (now : Int) (st : ClientStorage)
    (url method : String) (hdrs : List (String × String)) (env : FetchEnv) :
    ServiceClient.fetch now st url method hdrs (some false) env =
      .ok { refreshCalls := 0
            requests := [⟨baseUrlText st ++ url, method,
                          st.commonHeaders.getD [] ++ hdrs⟩]
            finalStatus := env.respStatus 0
            finalState := st } ∧
    (hlookup (st.commonHeaders.getD []) "Authorization" = none →
      hlookup hdrs "Authorization" = none →
      hlookup (st.commonHeaders.getD [] ++ hdrs) "Authorization" = none) := by
  constructor
  · simp [ServiceClient.fetch, fetchPreRefresh, fetchBuild]
  · intro h1 h2
    rw [hlookup_append, h2]
    exact h1

/-- Witness for claim C7: a concrete unauthenticated GET issues one bare
request and leaves the session alone. -/
theorem fetch_unauthenticated_spec_witness :
    ServiceClient.fetch 0 plainStorage "/providers" "GET"
      [("Accept", "application/json")] (some false) deniedEnv =
      .ok { refreshCalls := 0
            requests := [⟨"https://superface.ai/providers", "GET",
                          [("Accept", "application/json")]⟩]
            finalStatus := 200
            finalState := plainStorage } ∧
    hlookup ([] ++ [("Accept", "application/json")]) "Authorization" = none :=
  ⟨(fetch_unauthenticated_spec 0 plainStorage "/providers" "GET"
      [("Accept", "application/json")] deniedEnv).1,
   (fetch_unauthenticated_spec 0 plainStorage "/providers" "GET"
      [("Accept", "application/json")] deniedEnv).2 rfl rfl⟩

/-- Claim C10: an authenticated `fetch` while the session holds no access
token (with the refresh endpoint declining, so the call proceeds with no
token) still issues every request with an `Authorization` header whose value
is the literal string `Bearer undefined` (JS template interpolation of
`undefined`). -/
theorem fetch_bearer_undefined (now : Int) (st : ClientStorage)
    (url method : String) (hdrs : List (String × String)) (auth : Option Bool)
    (env : FetchEnv) (b : String)
    (hauth : auth.getD true = true)
    (hnotok : st.authToken = none)
    (hb : st.baseUrl = some b) (hne : b ≠ "")
    (hr0 : (env.refreshResp 0).status ≠ 201)
    (hr1 : (env.refreshResp 1).status ≠ 201) :
    ∃ out, ServiceClient.fetch now st url method hdrs auth env = .ok out ∧
      out.requests ≠ [] ∧
      ∀ req ∈ out.requests,
        hlookup req.headers "Authorization" = some "Bearer undefined" := by
  have hexp : isAccessTokenExpired now st = true := by
    simp [isAccessTokenExpired, hnotok]
  have hbv : bearerValue st = "Bearer undefined" := by
    simp [bearerValue, hnotok]
  have hpre : fetchPreRefresh now st true env = .ok (st, 1) := by
    unfold fetchPreRefresh
    rw [hexp]
    rw [refreshAccessToken_non201 now st none (env.refreshResp 0) b hb hne hr0]
    rfl
  unfold ServiceClient.fetch
  rw [hauth]
  dsimp only
  rw [hpre]
  dsimp only [fetchBuild]
  simp only [Bool.true_and]
  by_cases hretry :
      (env.respStatus 0 == 401 || env.respStatus 0 == 403) = true
  · rw [if_pos hretry]
    rw [refreshAccessToken_non201 now st none (env.refreshResp 1) b hb hne hr1]
    dsimp only [fetchBuild]
    refine ⟨_, rfl, by simp, ?_⟩
    intro req hreq
    simp only [List.mem_cons, List.mem_singleton, List.not_mem_nil, or_false] at hreq
    rcases hreq with h | h <;>
      · subst h
        dsimp only
        rw [if_pos trivial, hbv, hlookup_append_singleton]
  · rw [if_neg hretry]
    refine ⟨_, rfl, by simp, ?_⟩
    intro req hreq
    simp only [List.mem_singleton] at hreq
    subst hreq
    dsimp only
    rw [if_pos trivial, hbv, hlookup_append_singleton]

/-- Witness for claim C10: a concrete authenticated call on a logged-out
session whose refresh endpoint answers 400 carries `Bearer undefined`. -/
theorem fetch_bearer_undefined_witness :
    ∃ out, ServiceClient.fetch 0 plainStorage "/insights" "GET" [] none
        deniedEnv = .ok out ∧
      out.requests ≠ [] ∧
      ∀ req ∈ out.requests,
        hlookup req.headers "Authorization" = some "Bearer undefined" :=
  fetch_bearer_undefined 0 plainStorage "/insights" "GET" [] none deniedEnv
    "https://superface.ai" rfl rfl rfl (by decide) (by decide) (by decide)

/-- Claim C1: an authenticated `fetch` whose primary response is 401 or 403
performs exactly one refresh-and-retry cycle — one further call to
`refreshAccessToken`, headers rebuilt with the then-current token, and the
request reissued exactly once — and the retried response is returned to the
caller whatever its status, so a second 401 never triggers a third request;
the pre-request refresh of an expired token is the only other refresh. -/
theorem fetch_401_single_retry (now : Int) (st : ClientStorage)
    (url method : String) (hdrs : List (String × String)) (auth : Option Bool)
    (env : FetchEnv) (b : String)
    (hauth : auth.getD true = true)
    (hb : st.baseUrl = some b) (hne : b ≠ "")
    (h401 : env.respStatus 0 = 401 ∨ env.respStatus 0 = 403) :
    ∃ out, ServiceClient.fetch now st url method hdrs auth env = .ok out ∧
      out.requests.length = 2 ∧
      out.refreshCalls = (if isAccessTokenExpired now st then 2 else 1) ∧
      out.finalStatus = env.respStatus 1 ∧
      ∃ req1 req2, out.requests = [req1, req2] ∧
        hlookup req2.headers "Authorization" =
          some (bearerValue out.finalState) := by
  have hcond : (env.respStatus 0 == 401 || env.respStatus 0 == 403) = true := by
    rcases h401 with h | h <;> simp [h]
  cases hexp : isAccessTokenExpired now st with
  | true =>
    obtain ⟨reqA, tokA, stA, hA, hAbase, hAcommon⟩ :=
      refreshAccessToken_isOk now st none (env.refreshResp 0) b hb hne
    have hpre : fetchPreRefresh now st true env = .ok (stA, 1) := by
      unfold fetchPreRefresh
      rw [hexp, hA]
      rfl
    obtain ⟨reqB, tokB, stB, hB, hBbase, hBcommon⟩ :=
      refreshAccessToken_isOk now stA none (env.refreshResp 1) b hAbase hne
    unfold ServiceClient.fetch
    rw [hauth]
    dsimp only
    rw [hpre]
    dsimp only [fetchBuild]
    simp only [Bool.true_and]
    rw [if_pos hcond, hB]
    dsimp only
    refine ⟨_, rfl, rfl, by simp [hexp], rfl, _, _, rfl, ?_⟩
    simp only [if_true]
    rw [hlookup_append_singleton]
  | false =>
    have hpre : fetchPreRefresh now st true env = .ok (st, 0) := by
      unfold fetchPreRefresh
      rw [hexp]
      rfl
    obtain ⟨reqB, tokB, stB, hB, hBbase, hBcommon⟩ :=
      refreshAccessToken_isOk now st none (env.refreshResp 0) b hb hne
    unfold ServiceClient.fetch
    rw [hauth]
    dsimp only
    rw [hpre]
    dsimp only [fetchBuild]
    simp only [Bool.true_and]
    rw [if_pos hcond, hB]
    dsimp only
    refine ⟨_, rfl, rfl, by simp [hexp], rfl, _, _, rfl, ?_⟩
    simp only [if_true]
    rw [hlookup_append_singleton]

/-- Witness for claim C1: with an expired (empty) session and both responses
401, exactly two requests and two refresh calls happen, and the retried
response is returned. -/
theorem fetch_401_single_retry_witness :
    ∃ out, ServiceClient.fetch 0 plainStorage "/test" "GET" [] none
        retryEnv = .ok out ∧
      out.requests.length = 2 ∧
      out.refreshCalls = (if isAccessTokenExpired 0 plainStorage then 2 else 1) ∧
      out.finalStatus = retryEnv.respStatus 1 ∧
      ∃ req1 req2, out.requests = [req1, req2] ∧
        hlookup req2.headers "Authorization" =
          some (bearerValue out.finalState) :=
  fetch_401_single_retry 0 plainStorage "/test" "GET" [] none retryEnv
    "https://superface.ai" rfl rfl (by decide) (Or.inl rfl)

theorem fetchVerifyLogin_confirmed (now : Int) (st : ClientStorage)
    (resp : PollHttp) (r : VerifyResponse) (st1 : ClientStorage)
    (h : fetchVerifyLogin now st resp = .ok (r, st1))
    (hc : r.verificationStatus = .CONFIRMED) :
    ∃ tok, r.authToken = some tok ∧ st1.authToken = some tok ∧
      st1.authTokenExpiresAt = some (now + tok.expires_in) := by
  cases resp with
  | ok200 tok =>
    simp only [fetchVerifyLogin, Except.ok.injEq, Prod.mk.injEq] at h
    obtain ⟨h1, h2⟩ := h
    exact ⟨tok, by rw [← h1], by rw [← h2]; rfl, by rw [← h2]; rfl⟩
  | err400 s title =>
    by_cases hs : s = .PENDING ∨ s = .USED ∨ s = .EXPIRED
    · simp only [fetchVerifyLogin, if_pos hs, Except.ok.injEq, Prod.mk.injEq] at h
      obtain ⟨h1, h2⟩ := h
      rw [← h1] at hc
      simp only at hc
      rcases hs with h' | h' | h' <;> simp_all
    · simp only [fetchVerifyLogin, if_neg hs] at h
      exact Except.noConfusion h
  | other n =>
    simp only [fetchVerifyLogin] at h
    exact Except.noConfusion h

theorem getLast_append_singleton {α : Type} (l : List α) (a : α) :
    (l ++ [a]).getLast? = some a := by
  rw [List.getLast?_concat]

theorem verifyLoop_confirmed (env : VerifyEnv) (timeoutMs intervalMs start : Int) :
    ∀ (fuel : Nat) (t : Int) (i : Nat) (st : ClientStorage) (evs : List VEvent)
      (r : VerifyResponse) (st' : ClientStorage) (evs' : List VEvent),
      verifyLoop env timeoutMs intervalMs start fuel t i st evs = (.ok r st', evs') →
      r.verificationStatus = .CONFIRMED →
      ∃ tok i2 tc, r.authToken = some tok ∧
        evs'.getLast? = some (.polled i2 tc) ∧
        st'.authToken = some tok ∧
        st'.authTokenExpiresAt = some (tc + tok.expires_in) := by
  intro fuel
  induction fuel with
  | zero =>
    intro t i st evs r st' evs' h hc
    rw [verifyLoop] at h
    simp at h
  | succ fuel ih =>
    intro t i st evs r st' evs' h hc
    rw [verifyLoop] at h
    by_cases hg : t - start < timeoutMs
    · rw [if_pos hg] at h
      dsimp only at h
      cases hfv : fetchVerifyLogin (t + (env.pollDur i : Int)) st (env.polls i) with
      | error e =>
        rw [hfv] at h
        simp at h
      | ok p =>
        obtain ⟨r0, st0⟩ := p
        rw [hfv] at h
        dsimp only at h
        by_cases hr0 : r0.verificationStatus ≠ .PENDING
        · rw [if_pos hr0] at h
          injection h with h1 h2
          injection h1 with h1a h1b
          subst h1a
          subst h1b
          subst h2
          obtain ⟨tok, ha, hb, hcx⟩ :=
            fetchVerifyLogin_confirmed _ _ _ _ _ hfv hc
          exact ⟨tok, i, t + (env.pollDur i : Int), ha,
            getLast_append_singleton _ _, hb, hcx⟩
        · rw [if_neg hr0] at h
          by_cases hcan : env.cancelled i = true
          · rw [if_pos hcan] at h
            injection h with h1 h2
            injection h1 with h1a h1b
            subst h1a
            simp at hc
          · rw [if_neg hcan] at h
            exact ih _ _ _ _ _ _ _ h hc
    · rw [if_neg hg] at h
      injection h with h1 h2
      injection h1 with h1a h1b
      subst h1a
      simp at hc

/-- Claim C5: whenever `verifyLogin` returns `CONFIRMED` with a token, the
token has been handed to `login` as an observable side effect.  The login
time `tc` is pinned to the run's own timeline: it is the completion time of
the confirming poll, recorded as the last event of the run's trace (and the
call returns at that very moment, with no further sleep).  The final session
stores exactly that token with expiry `tc + expires_in`, so with a positive
`expires_in` the session is not expired at the return time `tc` — nor at any
later instant before the expiry. -/
theorem verifyLogin_confirmed_roundtrip (env : VerifyEnv)
    (pt pi : Option Int) (fuel : Nat) (start : Int) (st : ClientStorage)
    (r : VerifyResponse) (st' : ClientStorage) (evs : List VEvent)
    (h : ServiceClient.verifyLogin env pt pi fuel start st = (.ok r st', evs))
    (hc : r.verificationStatus = .CONFIRMED) :
    ∃ tok i tc, r.authToken = some tok ∧
      evs.getLast? = some (.polled i tc) ∧
      st'.authToken = some tok ∧
      st'.authTokenExpiresAt = some (tc + tok.expires_in) ∧
      (0 < tok.expires_in → isAccessTokenExpired tc st' = false) ∧
      (∀ t2, tc ≤ t2 → t2 < tc + tok.expires_in →
        isAccessTokenExpired t2 st' = false) := by
  unfold ServiceClient.verifyLogin at h
  obtain ⟨tok, i, tc, h1, hev, h2, h3⟩ :=
    verifyLoop_confirmed env _ _ start fuel start 0 st [] r st' evs h hc
  have hfresh : ∀ t2, tc ≤ t2 → t2 < tc + tok.expires_in →
      isAccessTokenExpired t2 st' = false := by
    intro t2 hle hlt
    simp only [isAccessTokenExpired, h2, h3]
    have hn : ¬ (tc + tok.expires_in ≤ t2) := by omega
    simp [hn]
  refine ⟨tok, i, tc, h1, hev, h2, h3, ?_, hfresh⟩
  intro hpos
  exact hfresh tc le_rfl (by omega)

/-- Witness for claim C5: a run whose first poll answers 200 with
`sampleToken` at time 5 confirms, logs the token in at that trace-recorded
time, and the session is fresh from then until the expiry. -/
theorem verifyLogin_confirmed_roundtrip_witness :
    ∃ tok i tc,
      (VerifyResponse.mk .CONFIRMED (some sampleToken)).authToken = some tok ∧
      ([VEvent.polled 0 5] : List VEvent).getLast? = some (.polled i tc) ∧
      confirmedStorage.authToken = some tok ∧
      confirmedStorage.authTokenExpiresAt = some (tc + tok.expires_in) ∧
      (0 < tok.expires_in → isAccessTokenExpired tc confirmedStorage = false) ∧
      (∀ t2, tc ≤ t2 → t2 < tc + tok.expires_in →
        isAccessTokenExpired t2 confirmedStorage = false) :=
  verifyLogin_confirmed_roundtrip confirmedEnv none none 1 0 plainStorage
    ⟨.CONFIRMED, some sampleToken⟩ confirmedStorage [.polled 0 5]
    (by decide) rfl

/-- Claim C3 (amended): when the polling timeout is positive, the first poll
answers `PENDING`, and the cancellation flag is already set when sampled
after that poll, `verifyLogin` invokes the completion callback and returns
`POLLING_CANCELLED` right after the first poll — before any sleep — and so
never returns `POLLING_TIMEOUT`; but with a timeout of zero (or less) the
loop guard, which is evaluated at the top of the loop before any poll, fails
immediately and the call returns `POLLING_TIMEOUT` without polling. -/
theorem verifyLogin_cancelled_spec (env : VerifyEnv)
    (pt pi : Option Int) (fuel : Nat) (start : Int) (st : ClientStorage)
    (title : String)
    (hpt : 0 < pt.getD DEFAULT_POLLING_TIMEOUT_SECONDS)
    (hp : env.polls 0 = .err400 .PENDING title)
    (hc : env.cancelled 0 = true)
    (hf : 1 ≤ fuel) :
    ServiceClient.verifyLogin env pt pi fuel start st =
      (.ok ⟨.POLLING_CANCELLED, none⟩ st,
       [.polled 0 (start + (env.pollDur 0 : Int)),
        .cancelCallback (start + (env.pollDur 0 : Int))]) := by
  obtain ⟨fuel', rfl⟩ : ∃ f, fuel = f + 1 := ⟨fuel - 1, by omega⟩
  unfold ServiceClient.verifyLogin
  dsimp only
  rw [verifyLoop]
  rw [if_pos
    (show start - start < pt.getD DEFAULT_POLLING_TIMEOUT_SECONDS * 1000 by
      omega)]
  dsimp only
  rw [hp]
  simp [fetchVerifyLogin, hc]

/-- Witness for claim C3: a concrete pending poll with the flag set returns
`POLLING_CANCELLED` after invoking the callback. -/
theorem verifyLogin_cancelled_spec_witness :
    ServiceClient.verifyLogin pendingCancelEnv (some 1) (some 1) 1 0
      plainStorage =
      (.ok ⟨.POLLING_CANCELLED, none⟩ plainStorage,
       [.polled 0 5, .cancelCallback 5]) :=
  verifyLogin_cancelled_spec pendingCancelEnv (some 1) (some 1) 1 0
    plainStorage "pending" (by decide) rfl rfl (by decide)

/-- Counterexample to claim C3 as stated: with the cancellation flag set
before the first poll and `pollingTimeoutSeconds = 0` — a value smaller than
the time to the first poll's completion — the loop guard (evaluated before
any poll) fails at once, so the call returns `POLLING_TIMEOUT` with an empty
event trace: no poll, no completion callback, and not `POLLING_CANCELLED`. -/
theorem verifyLogin_cancelled_zero_timeout_counterexample :
    pendingCancelEnv.cancelled 0 = true ∧
    ServiceClient.verifyLogin pendingCancelEnv (some 0) (some 1) 3 0
      plainStorage =
      (.ok ⟨.POLLING_TIMEOUT, none⟩ plainStorage, []) :=
  ⟨rfl, by decide⟩

theorem verifyLoop_pending_timeout (env : VerifyEnv)
    (timeoutMs intervalMs start : Int)
    (hp : ∀ i, ∃ title, env.polls i = .err400 .PENDING title)
    (hc : ∀ i, env.cancelled i = false)
    (hi : 1 ≤ intervalMs) :
    ∀ (fuel : Nat) (t : Int) (i : Nat) (st : ClientStorage) (evs : List VEvent),
      timeoutMs ≤ t - start + (fuel : Int) →
      (verifyLoop env timeoutMs intervalMs start (fuel + 1) t i st evs).1 =
        .ok ⟨.POLLING_TIMEOUT, none⟩ st := by
  intro fuel
  induction fuel with
  | zero =>
    intro t i st evs hb
    rw [verifyLoop]
    rw [if_neg (by omega)]
  | succ fuel ih =>
    intro t i st evs hb
    rw [verifyLoop]
    by_cases hg : t - start < timeoutMs
    · rw [if_pos hg]
      dsimp only
      obtain ⟨title, hpi⟩ := hp i
      rw [hpi]
      simp only [fetchVerifyLogin, hc i]
      refine ih _ _ _ _ ?_
      have hd : (0 : Int) ≤ (env.pollDur i : Int) := Int.ofNat_nonneg _
      omega
    · rw [if_neg hg]

/-- Claim C4 (amended): a `verifyLogin` run whose every poll answers
`PENDING` and is never cancelled returns exactly `POLLING_TIMEOUT`, never
throwing; the timeout condition is evaluated at the top of each iteration,
before the poll, so after a `PENDING` poll the loop always sleeps one
interval before the timeout is re-examined — possibly sleeping one extra
interval after the timeout has already been reached. -/
theorem verifyLogin_pending_timeout_spec (env : VerifyEnv)
    (pt pi : Option Int) (fuel : Nat) (start : Int) (st : ClientStorage)
    (hp : ∀ i, ∃ title, env.polls i = .err400 .PENDING title)
    (hc : ∀ i, env.cancelled i = false)
    (hi : 1 ≤ pi.getD DEFAULT_POLLING_INTERVAL_SECONDS)
    (hf : pt.getD DEFAULT_POLLING_TIMEOUT_SECONDS * 1000 ≤ (fuel : Int)) :
    (ServiceClient.verifyLogin env pt pi (fuel + 1) start st).1 =
      .ok ⟨.POLLING_TIMEOUT, none⟩ st := by
  unfold ServiceClient.verifyLogin
  dsimp only
  exact verifyLoop_pending_timeout env _ _ start hp hc (by omega)
    fuel start 0 st [] (by omega)

/-- Witness for claim C4: with a one-second timeout and all-pending polls,
a sufficiently long run returns `POLLING_TIMEOUT`. -/
theorem verifyLogin_pending_timeout_spec_witness :
    (ServiceClient.verifyLogin noCancelEnv (some 1) (some 1) (1000 + 1) 0
      plainStorage).1 = .ok ⟨.POLLING_TIMEOUT, none⟩ plainStorage :=
  verifyLogin_pending_timeout_spec noCancelEnv (some 1) (some 1) 1000 0
    plainStorage (fun _ => ⟨"pending", rfl⟩) (fun _ => rfl)
    (by decide) (by decide)

/-- Counterexample to claim C4 as stated: with a 1-second timeout and a
first poll taking 2000 ms, the run still sleeps the full interval at
absolute time 2000 — when the elapsed time 2000 has already reached the
1000 ms timeout — because the timeout is only re-examined at the top of the
loop; the claim's assertion that the call never sleeps once the timeout has
been reached is false. -/
theorem verifyLogin_sleeps_after_timeout_counterexample :
    ServiceClient.verifyLogin noCancelEnv (some 1) (some 1) 2 0 plainStorage =
      (.ok ⟨.POLLING_TIMEOUT, none⟩ plainStorage,
       [.polled 0 2000, .slept 2000]) ∧
    (1 * 1000 : Int) ≤ 2000 - 0 :=
  ⟨by decide, by decide⟩
